import Mathlib

/-!
Shallow embedding of the `pyprobeplus_ble` driver
(`src/pyprobeplus_ble/pyprobeplus_ble.py` and `src/pyprobeplus_ble/models.py`).

Python floats are modelled as rationals (every decimal constant in the source
is an exact binary fraction or is used only at comparison points where the
rational and floating-point comparisons agree, since the compared values are
spaced far wider than one ulp); Python ints are modelled as `ℤ` (unbounded) or
`ℕ` for raw bytes; a notification payload is a `List ℕ` of byte values; the
BLE client handle is an explicit `Option Client`.  Transport side effects
(stop_notify, disconnect, sleep) are recorded in explicit event traces so that
ordering claims can be stated.  `asyncio` locking and task scheduling are not
modelled: every claim below concerns the sequential body of a single handler
run under the lock.
-/

/-- Embedding of `models.ProbeState` (mutable dataclass, defaults 0). -/
structure ProbeState where
  battery_level : ℤ
  temperature : ℚ
  rssi : ℚ
deriving DecidableEq

/-- Embedding of `models.RelayState` (mutable dataclass, defaults 0; the
source really spells the voltage field `volage`). -/
structure RelayState where
  battery_level : ℤ
  volage : ℚ
  status : ℤ
deriving DecidableEq

/-- A BLE client handle: an identifier plus its `is_connected` flag, the only
two facets of `BleakClientWithServiceCache` that the session logic reads. -/
structure Client where
  id : ℕ
  is_connected : Bool
deriving DecidableEq

/-- The mutable fields of a `ProbePlusBLE` session instance that the claims
concern (callbacks are modelled as opaque numeric identifiers). -/
structure ProbePlusBLE where
  _probe_state : ProbeState
  _relay_state : RelayState
  _callbacks : List ℕ
  _expected_disconnect : Bool
  _client : Option Client
deriving DecidableEq

/-- Session state established by `ProbePlusBLE.__init__`: fresh zero states,
no callbacks, `_expected_disconnect = True`, `_client = None`. -/
def ProbePlusBLE.init : ProbePlusBLE :=
  { _probe_state := ⟨0, 0, 0⟩
    _relay_state := ⟨0, 0, 0⟩
    _callbacks := []
    _expected_disconnect := true
    _client := none }

/-- Embedding of `struct.unpack(">H", two_bytes)[0]`: big-endian 16-bit read. -/
def unpackBE16 (hi lo : ℕ) : ℕ := hi * 256 + lo

/-- Embedding of `ProbePlusBLE._notification_handler` (the state mutation it
performs; the trailing `_fire_callbacks` call does not change the state).
Bytes are read with `List.getD` — safe because the source only indexes after
the length check on the same branch. -/
def ProbePlusBLE._notification_handler (s : ProbePlusBLE) (data : List ℕ) :
    ProbePlusBLE :=
  if data.length = 9 ∧ data.getD 0 0 = 0x00 ∧ data.getD 1 0 = 0x00 then
    -- probe state
    let d : ℚ := (data.getD 3 0 : ℚ) * (1 / 32)        -- 0.03125
    let battery : ℤ :=
      if d ≥ 2 then 100  -- 2.0
      else if d ≥ 17 / 10 then 51  -- 1.7
      else if d ≥ 3 / 2 then 26  -- 1.5
      else 20
    let raw : ℕ := unpackBE16 (data.getD 4 0) (data.getD 5 0)
    let temperature : ℚ := (((raw : ℚ) * (1 / 16)) - 801 / 16) / 100  -- 0.0625 and 50.0625
    { s with _probe_state :=
        { battery_level := battery
          temperature := temperature
          rssi := (data.getD 8 0 : ℚ) } }
  else if data.length = 8 ∧ data.getD 0 0 = 0x00 ∧ data.getD 1 0 = 0x01 then
    -- relay state
    let volage : ℚ := (unpackBE16 (data.getD 2 0) (data.getD 3 0) : ℚ) / 1000  -- 1000.0
    let battery : ℤ :=
      if volage > 387 / 100 then 100  -- 3.87
      else if volage ≥ 37 / 10 then 74  -- 3.7
      else if volage ≥ 18 / 5 then 49  -- 3.6
      else 0
    -- the single hardcoded probe channel loop, guarded by `len(data) > 4`
    let status : ℤ :=
      if data.length > 4 then (data.getD 4 0 : ℤ) else s._relay_state.status
    { s with _relay_state :=
        { battery_level := battery
          volage := volage
          status := status } }
  else
    s

/-- Embedding of the `probe_state` property: it returns
`self._relay_state.status`. -/
def ProbePlusBLE.probe_state (s : ProbePlusBLE) : ℤ :=
  s._relay_state.status

/-- Observable steps taken by `_execute_disconnect`, in execution order. -/
inductive DiscEvent
  | setExpectedDisconnect (b : Bool)
  | clearClient
  | stopNotify (cid : ℕ)
  | stopNotifyFailedSwallowed (cid : ℕ)
  | transportDisconnect (cid : ℕ)
deriving DecidableEq

/-- Embedding of `ProbePlusBLE._execute_disconnect` (the body under
`self._connect_lock`): saves the client, sets `_expected_disconnect = True`,
clears `_client`, and only if the saved client exists and is connected tries
`stop_notify` (a `BleakError` is swallowed — parameter `stop_notify_fails`
chooses the environment behaviour) and then calls `disconnect`.  Returns the
new state with the trace of observable steps. -/
def ProbePlusBLE._execute_disconnect (s : ProbePlusBLE)
    (stop_notify_fails : Bool) : ProbePlusBLE × List DiscEvent :=
  let client := s._client
  let s' := { s with _expected_disconnect := true, _client := none }
  let base : List DiscEvent := [.setExpectedDisconnect true, .clearClient]
  match client with
  | some c =>
      if c.is_connected then
        (s', base
          ++ (if stop_notify_fails then [.stopNotifyFailedSwallowed c.id]
              else [.stopNotify c.id])
          ++ [.transportDisconnect c.id])
      else (s', base)
  | none => (s', base)

/-- Truthiness of `self._client and self._client.is_connected`. -/
def clientIsConnected : Option Client → Bool
  | some c => c.is_connected
  | none => false

/-- Embedding of the successful path of `ProbePlusBLE._ensure_connected`:
if a connected client is already held, return unchanged; otherwise (both
`establish_connection` and `start_notify` succeeding, the new handle being
`newClient`) store the handle.  No other field of the session is written on
this path — in particular `_expected_disconnect` is not touched. -/
def ProbePlusBLE._ensure_connected (s : ProbePlusBLE) (newClient : Client) :
    ProbePlusBLE :=
  if clientIsConnected s._client then s
  else { s with _client := some newClient }

/-- The two error classes distinguished by `_retry_ble_connection`:
`BleakDBusError` (caught first) and any other `BleakError`. -/
inductive AttemptError
  | dbusError
  | bleakError
deriving DecidableEq

/-- Observable steps of one failing attempt inside `_retry_ble_connection`. -/
inductive RetryEvent
  | sleep (seconds : ℕ)
  | fullDisconnect
  | reraise
deriving DecidableEq

/-- Embedding of one failing attempt of `ProbePlusBLE._retry_ble_connection`:
on `BleakDBusError` it sleeps 60 s, runs `_execute_disconnect`, and re-raises;
on any other `BleakError` it runs `_execute_disconnect` and re-raises.  `s` is
the session state at the moment the error propagates out of
`_ensure_connected`; `stop_notify_fails` is passed through to the disconnect. -/
def ProbePlusBLE._retry_ble_connection_attempt (s : ProbePlusBLE)
    (e : AttemptError) (stop_notify_fails : Bool) :
    ProbePlusBLE × List RetryEvent :=
  match e with
  | .dbusError =>
      ((s._execute_disconnect stop_notify_fails).1,
        [.sleep 60, .fullDisconnect, .reraise])
  | .bleakError =>
      ((s._execute_disconnect stop_notify_fails).1,
        [.fullDisconnect, .reraise])

/-- Embedding of `ProbePlusBLE.register_callback`: appends the callback to
`self._callbacks`. -/
def ProbePlusBLE.register_callback (s : ProbePlusBLE) (fn : ℕ) : ProbePlusBLE :=
  { s with _callbacks := s._callbacks ++ [fn] }

/-- Embedding of Python `list.remove(x)`: removes the first element equal to
`x`; `none` models the `ValueError` raised when no element matches. -/
def pyListRemove (fn : ℕ) : List ℕ → Option (List ℕ)
  | [] => none
  | x :: xs => if x = fn then some xs else (pyListRemove fn xs).map (x :: ·)

/-- Embedding of the closure returned by `register_callback`: it runs
`self._callbacks.remove(callback)` on the current session state. -/
def ProbePlusBLE.unregister_callback (s : ProbePlusBLE) (fn : ℕ) :
    Option ProbePlusBLE :=
  (pyListRemove fn s._callbacks).map (fun l => { s with _callbacks := l })

/-- Helper: a payload of length 8 never matches the probe branch guard. -/
theorem probe_guard_false_of_length_eight {data : List ℕ}
    (h8 : data.length = 8) :
    ¬(data.length = 9 ∧ data.getD 0 0 = 0 ∧ data.getD 1 0 = 0) := by
  rintro ⟨h, -, -⟩
  omega

/-- C1: for every 9-byte notification starting `0x00 0x00`, the decoded probe
state has battery_level given by the four-tier mapping on
`d = byte3 * 0.03125` (thresholds 2.0, 1.7, 1.5, else 20), temperature
`((BE16(bytes 4..5) * 0.0625) - 50.0625) / 100`, and rssi `byte8`; in
particular the bytes `00 00 12 40 07 D0 34 56 64` yield battery_level 100,
temperature 0.749375 = 1199/1600, rssi 100. -/
theorem c1_probe_decode (s : ProbePlusBLE) (data : List ℕ)
    (h9 : data.length = 9) (h0 : data.getD 0 0 = 0) (h1 : data.getD 1 0 = 0) :
    ((s._notification_handler data)._probe_state.battery_level =
      (if (data.getD 3 0 : ℚ) * (1 / 32) ≥ 2 then 100
       else if (data.getD 3 0 : ℚ) * (1 / 32) ≥ 17 / 10 then 51
       else if (data.getD 3 0 : ℚ) * (1 / 32) ≥ 3 / 2 then 26
       else 20)) ∧
    (s._notification_handler data)._probe_state.temperature =
      (((unpackBE16 (data.getD 4 0) (data.getD 5 0) : ℚ) * (1 / 16))
        - 801 / 16) / 100 ∧
    (s._notification_handler data)._probe_state.rssi = (data.getD 8 0 : ℚ) ∧
    (s._notification_handler
        [0x00, 0x00, 0x12, 0x40, 0x07, 0xD0, 0x34, 0x56, 0x64])._probe_state
      = ⟨100, 1199 / 1600, 100⟩ := by
  refine ⟨?_, ?_, ?_, ?_⟩
  · unfold ProbePlusBLE._notification_handler
    rw [if_pos ⟨h9, h0, h1⟩]
  · unfold ProbePlusBLE._notification_handler
    rw [if_pos ⟨h9, h0, h1⟩]
  · unfold ProbePlusBLE._notification_handler
    rw [if_pos ⟨h9, h0, h1⟩]
  · norm_num [ProbePlusBLE._notification_handler, unpackBE16]

/-- C1 witness: the theorem applied to the spec's example payload. -/
theorem c1_probe_decode_witness :
    (ProbePlusBLE.init._notification_handler
        [0x00, 0x00, 0x12, 0x40, 0x07, 0xD0, 0x34, 0x56, 0x64])._probe_state
      = ⟨100, 1199 / 1600, 100⟩ :=
  (c1_probe_decode ProbePlusBLE.init
      [0x00, 0x00, 0x12, 0x40, 0x07, 0xD0, 0x34, 0x56, 0x64]
      (by decide) (by decide) (by decide)).2.2.2

/-- C2: for every 8-byte notification starting `0x00 0x01`, the decoded relay
state has volage `BE16(bytes 2..3) / 1000`, battery_level by the mapping
`v > 3.87 → 100`, `v ≥ 3.7 → 74`, `v ≥ 3.6 → 49`, else 0 (hence always one of
0, 49, 74, 100), and status `byte4`. -/
theorem c2_relay_decode (s : ProbePlusBLE) (data : List ℕ)
    (h8 : data.length = 8) (h0 : data.getD 0 0 = 0) (h1 : data.getD 1 0 = 1) :
    (s._notification_handler data)._relay_state.volage =
      (unpackBE16 (data.getD 2 0) (data.getD 3 0) : ℚ) / 1000 ∧
    ((s._notification_handler data)._relay_state.battery_level =
      (if (unpackBE16 (data.getD 2 0) (data.getD 3 0) : ℚ) / 1000 > 387 / 100
        then 100
       else if (unpackBE16 (data.getD 2 0) (data.getD 3 0) : ℚ) / 1000 ≥ 37 / 10
        then 74
       else if (unpackBE16 (data.getD 2 0) (data.getD 3 0) : ℚ) / 1000 ≥ 18 / 5
        then 49
       else 0)) ∧
    ((s._notification_handler data)._relay_state.battery_level = 0 ∨
     (s._notification_handler data)._relay_state.battery_level = 49 ∨
     (s._notification_handler data)._relay_state.battery_level = 74 ∨
     (s._notification_handler data)._relay_state.battery_level = 100) ∧
    (s._notification_handler data)._relay_state.status = (data.getD 4 0 : ℤ) := by
  have hne := probe_guard_false_of_length_eight h8
  unfold ProbePlusBLE._notification_handler
  rw [if_neg hne, if_pos ⟨h8, h0, h1⟩]
  refine ⟨rfl, rfl, ?_, ?_⟩
  · dsimp only
    split_ifs <;> simp
  · dsimp only
    rw [if_pos (by omega : data.length > 4)]

/-- C2 witness: the theorem applied to the relay example payload
`00 01 0F 3C 01 00 00 00` (voltage 3.9 V, battery 100, status 1). -/
theorem c2_relay_decode_witness :
    (ProbePlusBLE.init._notification_handler
        [0x00, 0x01, 0x0F, 0x3C, 0x01, 0, 0, 0])._relay_state.status =
      (([0x00, 0x01, 0x0F, 0x3C, 0x01, 0, 0, 0] : List ℕ).getD 4 0 : ℤ) :=
  (c2_relay_decode ProbePlusBLE.init [0x00, 0x01, 0x0F, 0x3C, 0x01, 0, 0, 0]
      (by decide) (by decide) (by decide)).2.2.2

/-- C3: a notification matching neither the probe shape (length 9, prefix
`0x00 0x00`) nor the relay shape (length 8, prefix `0x00 0x01`) leaves the
whole session state — both probe and relay states included — unchanged; the
handler is a total function, so no error is raised. -/
theorem c3_unrecognized_inert (s : ProbePlusBLE) (data : List ℕ)
    (hp : ¬(data.length = 9 ∧ data.getD 0 0 = 0 ∧ data.getD 1 0 = 0))
    (hr : ¬(data.length = 8 ∧ data.getD 0 0 = 0 ∧ data.getD 1 0 = 1)) :
    s._notification_handler data = s := by
  unfold ProbePlusBLE._notification_handler
  rw [if_neg hp, if_neg hr]

/-- C3 witness: the theorem applied to the malformed payload `01 02 03`. -/
theorem c3_unrecognized_inert_witness :
    ProbePlusBLE.init._notification_handler [1, 2, 3] = ProbePlusBLE.init :=
  c3_unrecognized_inert ProbePlusBLE.init [1, 2, 3] (by decide) (by decide)

/-- C7: a probe-shaped notification (length 9, prefix `0x00 0x00`) leaves the
relay state unchanged, and a relay-shaped notification (length 8, prefix
`0x00 0x01`) leaves the probe state unchanged. -/
theorem c7_shape_isolation (s : ProbePlusBLE) (data : List ℕ) :
    (data.length = 9 → data.getD 0 0 = 0 → data.getD 1 0 = 0 →
      (s._notification_handler data)._relay_state = s._relay_state) ∧
    (data.length = 8 → data.getD 0 0 = 0 → data.getD 1 0 = 1 →
      (s._notification_handler data)._probe_state = s._probe_state) := by
  constructor
  · intro h9 h0 h1
    unfold ProbePlusBLE._notification_handler
    rw [if_pos ⟨h9, h0, h1⟩]
  · intro h8 h0 h1
    unfold ProbePlusBLE._notification_handler
    rw [if_neg (probe_guard_false_of_length_eight h8), if_pos ⟨h8, h0, h1⟩]

/-- C7 witness: the theorem applied to the two example payloads. -/
theorem c7_shape_isolation_witness :
    (ProbePlusBLE.init._notification_handler
        [0x00, 0x00, 0x12, 0x40, 0x07, 0xD0, 0x34, 0x56, 0x64])._relay_state =
      ProbePlusBLE.init._relay_state ∧
    (ProbePlusBLE.init._notification_handler
        [0x00, 0x01, 0x0F, 0x3C, 0x01, 0, 0, 0])._probe_state =
      ProbePlusBLE.init._probe_state :=
  ⟨(c7_shape_isolation ProbePlusBLE.init
      [0x00, 0x00, 0x12, 0x40, 0x07, 0xD0, 0x34, 0x56, 0x64]).1
      (by decide) (by decide) (by decide),
   (c7_shape_isolation ProbePlusBLE.init
      [0x00, 0x01, 0x0F, 0x3C, 0x01, 0, 0, 0]).2
      (by decide) (by decide) (by decide)⟩

/-- C10: the public accessor `probe_state` returns `relay_state.status`; a
relay-shaped decode changes its value to the new status byte (byte 4), and a
probe-shaped decode never changes it. -/
theorem c10_probe_state_accessor (s : ProbePlusBLE) (data : List ℕ) :
    s.probe_state = s._relay_state.status ∧
    (data.length = 8 → data.getD 0 0 = 0 → data.getD 1 0 = 1 →
      (s._notification_handler data).probe_state = (data.getD 4 0 : ℤ)) ∧
    (data.length = 9 → data.getD 0 0 = 0 → data.getD 1 0 = 0 →
      (s._notification_handler data).probe_state = s.probe_state) := by
  refine ⟨rfl, ?_, ?_⟩
  · intro h8 h0 h1
    unfold ProbePlusBLE.probe_state ProbePlusBLE._notification_handler
    rw [if_neg (probe_guard_false_of_length_eight h8), if_pos ⟨h8, h0, h1⟩]
    dsimp only
    rw [if_pos (by omega : data.length > 4)]
  · intro h9 h0 h1
    unfold ProbePlusBLE.probe_state ProbePlusBLE._notification_handler
    rw [if_pos ⟨h9, h0, h1⟩]

/-- C10 witness: the theorem applied to the two example payloads. -/
theorem c10_probe_state_accessor_witness :
    (ProbePlusBLE.init._notification_handler
        [0x00, 0x01, 0x0F, 0x3C, 0x01, 0, 0, 0]).probe_state =
      (([0x00, 0x01, 0x0F, 0x3C, 0x01, 0, 0, 0] : List ℕ).getD 4 0 : ℤ) ∧
    (ProbePlusBLE.init._notification_handler
        [0x00, 0x00, 0x12, 0x40, 0x07, 0xD0, 0x34, 0x56, 0x64]).probe_state =
      ProbePlusBLE.init.probe_state :=
  ⟨(c10_probe_state_accessor ProbePlusBLE.init
      [0x00, 0x01, 0x0F, 0x3C, 0x01, 0, 0, 0]).2.1
      (by decide) (by decide) (by decide),
   (c10_probe_state_accessor ProbePlusBLE.init
      [0x00, 0x00, 0x12, 0x40, 0x07, 0xD0, 0x34, 0x56, 0x64]).2.2
      (by decide) (by decide) (by decide)⟩

/-- Helper: `_execute_disconnect` always ends with the handle cleared and
`_expected_disconnect` set, whatever branch is taken. -/
theorem execute_disconnect_state (s : ProbePlusBLE) (f : Bool) :
    (s._execute_disconnect f).1 =
      { s with _expected_disconnect := true, _client := none } := by
  unfold ProbePlusBLE._execute_disconnect
  cases s._client with
  | none => rfl
  | some c => by_cases hc : c.is_connected = true <;> simp [hc]

/-- C4: the code at the claim's failing input.  Starting from the `__init__`
state (client `none`, `_expected_disconnect = True`) a fully successful
connect (transport connect plus notification subscription) stores the new
handle but leaves `_expected_disconnect` at `true` — the source never assigns
`False` to it anywhere, so a subsequent transport-initiated disconnect is
classified as expected, contradicting the claim (and leaving the
"unexpectedly disconnected" branch of `_disconnected` unreachable). -/
theorem c4_connect_does_not_clear_expected_disconnect :
    (ProbePlusBLE.init._ensure_connected ⟨1, true⟩)._client = some ⟨1, true⟩ ∧
    (ProbePlusBLE.init._ensure_connected ⟨1, true⟩)._expected_disconnect
      = true := by
  constructor <;> rfl

/-- C5 counterexample: with a connected client the code's step order is
set-expected, clear-handle, stop-notify, transport-disconnect — the handle is
cleared second, not last — and with no client held the code performs no
transport disconnect at all, refuting both "only then clear the connection
handle" and "unconditionally call transport disconnect". -/
theorem c5_counterexample :
    (({ ProbePlusBLE.init with
          _client := some ⟨7, true⟩ } : ProbePlusBLE)._execute_disconnect
        false).2 =
      [DiscEvent.setExpectedDisconnect true, DiscEvent.clearClient,
       DiscEvent.stopNotify 7, DiscEvent.transportDisconnect 7] ∧
    (({ ProbePlusBLE.init with
          _client := some ⟨7, true⟩ } : ProbePlusBLE)._execute_disconnect
        false).2 ≠
      [DiscEvent.setExpectedDisconnect true, DiscEvent.stopNotify 7,
       DiscEvent.transportDisconnect 7, DiscEvent.clearClient] ∧
    (ProbePlusBLE.init._execute_disconnect false).2 =
      [DiscEvent.setExpectedDisconnect true, DiscEvent.clearClient] := by
  have h1 : (({ ProbePlusBLE.init with
      _client := some ⟨7, true⟩ } : ProbePlusBLE)._execute_disconnect
        false).2 =
      [DiscEvent.setExpectedDisconnect true, DiscEvent.clearClient,
       DiscEvent.stopNotify 7, DiscEvent.transportDisconnect 7] := rfl
  refine ⟨h1, ?_, rfl⟩
  rw [h1]
  decide

/-- C5 as amended: under the lock the code sets `_expected_disconnect` to
true and clears the handle first, and then — only when a connected handle was
held — attempts the unsubscribe (swallowing a transport error) followed by
the transport disconnect; every run ends with the handle null. -/
theorem c5_disconnect_order (s : ProbePlusBLE) (f : Bool) :
    (s._execute_disconnect f).1._client = none ∧
    (s._execute_disconnect f).1._expected_disconnect = true ∧
    (s._execute_disconnect f).2 =
      [DiscEvent.setExpectedDisconnect true, DiscEvent.clearClient] ++
        (match s._client with
         | some c =>
             if c.is_connected then
               (if f then [DiscEvent.stopNotifyFailedSwallowed c.id]
                else [DiscEvent.stopNotify c.id])
                 ++ [DiscEvent.transportDisconnect c.id]
             else []
         | none => []) := by
  refine ⟨?_, ?_, ?_⟩
  · rw [execute_disconnect_state]
  · rw [execute_disconnect_state]
  · unfold ProbePlusBLE._execute_disconnect
    cases s._client with
    | none => rfl
    | some c =>
        cases f <;> by_cases hc : c.is_connected = true <;> simp [hc]

/-- C6: in the retry wrapper, a `BleakDBusError` attempt sleeps the 60 s
cooldown, performs the full disconnect, and re-raises, in that order; any
other `BleakError` attempt performs the full disconnect without a cooldown
and re-raises; and on both paths the connection handle is `none` before the
next attempt starts. -/
theorem c6_retry_error_paths (s : ProbePlusBLE) (f : Bool) :
    (s._retry_ble_connection_attempt .dbusError f).2 =
      [RetryEvent.sleep 60, RetryEvent.fullDisconnect, RetryEvent.reraise] ∧
    (s._retry_ble_connection_attempt .bleakError f).2 =
      [RetryEvent.fullDisconnect, RetryEvent.reraise] ∧
    (s._retry_ble_connection_attempt .dbusError f).1._client = none ∧
    (s._retry_ble_connection_attempt .bleakError f).1._client = none ∧
    (s._retry_ble_connection_attempt .dbusError f).1 =
      (s._execute_disconnect f).1 ∧
    (s._retry_ble_connection_attempt .bleakError f).1 =
      (s._execute_disconnect f).1 := by
  refine ⟨rfl, rfl, ?_, ?_, rfl, rfl⟩ <;>
    simp [ProbePlusBLE._retry_ble_connection_attempt, execute_disconnect_state]

/-- C9: a second `_execute_disconnect` run (through the public disconnect
path) is a no-op on the state and performs no transport operation — so it can
raise no error — and after it the session is in the same terminal state as
after the first run: handle `none`, `_expected_disconnect` true. -/
theorem c9_disconnect_idempotent (s : ProbePlusBLE) (f1 f2 : Bool) :
    ((s._execute_disconnect f1).1._execute_disconnect f2).1 =
      (s._execute_disconnect f1).1 ∧
    ((s._execute_disconnect f1).1._execute_disconnect f2).2 =
      [DiscEvent.setExpectedDisconnect true, DiscEvent.clearClient] ∧
    (s._execute_disconnect f1).1._client = none ∧
    (s._execute_disconnect f1).1._expected_disconnect = true := by
  rw [execute_disconnect_state, execute_disconnect_state]
  exact ⟨rfl, rfl, rfl, rfl⟩

/-- Helper: Python `list.remove` deletes the first occurrence, so when the
target is absent from the prefix it deletes exactly the occurrence between
the prefix and the suffix. -/
theorem pyListRemove_append_of_not_mem {l : List ℕ} (m : List ℕ) (fn : ℕ)
    (h : fn ∉ l) :
    pyListRemove fn (l ++ fn :: m) = some (l ++ m) := by
  induction l with
  | nil => simp [pyListRemove]
  | cons x xs ih =>
      rw [List.mem_cons, not_or] at h
      have hx : ¬x = fn := fun hx => h.1 hx.symm
      simp only [List.cons_append, pyListRemove, if_neg hx, List.append_eq,
        ih h.2]
      rfl

/-- C8 counterexample: register callback 5 (call A), then 7, then 5 again
(call B); running call B's unregister (`list.remove(5)`) on the resulting
registry `[5, 7, 5]` removes call A's registration, giving fan-out order
`[7, 5]` instead of the `[5, 7]` that removing exactly call B's registration
would leave. -/
theorem c8_counterexample :
    (((ProbePlusBLE.init.register_callback 5).register_callback
        7).register_callback 5).unregister_callback 5 =
      some { ProbePlusBLE.init with _callbacks := [7, 5] } ∧
    ([7, 5] : List ℕ) ≠ [5, 7] := by
  constructor
  · rfl
  · decide

/-- C8 as amended: the unregister closure returned by `register_callback(fn)`
removes the first registration whose callback equals `fn`; when `fn` was not
already registered at the time of the call, this is exactly the registration
created by that call, and the registrations made before (`s._callbacks`) and
after (`m`) all stay intact, in order. -/
theorem c8_unregister_first_occurrence (s : ProbePlusBLE) (m : List ℕ)
    (fn : ℕ) (h : fn ∉ s._callbacks) :
    ({ (s.register_callback fn) with
        _callbacks := (s.register_callback fn)._callbacks ++ m } :
      ProbePlusBLE).unregister_callback fn =
      some { s with _callbacks := s._callbacks ++ m } := by
  unfold ProbePlusBLE.unregister_callback ProbePlusBLE.register_callback
  simp only [List.append_assoc, List.singleton_append]
  rw [pyListRemove_append_of_not_mem m fn h]
  rfl

/-- C8 witness: the amended theorem applied to prior registrations `[1, 2]`,
a fresh callback 5, and a later registration 7. -/
theorem c8_unregister_first_occurrence_witness :
    (5 : ℕ) ∉ ({ ProbePlusBLE.init with _callbacks := [1, 2] } :
      ProbePlusBLE)._callbacks ∧
    ({ ProbePlusBLE.init with
        _callbacks := [1, 2, 5, 7] } : ProbePlusBLE).unregister_callback 5 =
      some { ProbePlusBLE.init with _callbacks := [1, 2, 7] } :=
  ⟨by decide,
   c8_unregister_first_occurrence
     { ProbePlusBLE.init with _callbacks := [1, 2] } [7] 5 (by decide)⟩
